import Mathlib

/-!
Verification development for the surface-generation core of
`theoretical_nn_training/generators.py` (Dobrynin solution theory data
generators).  The Python code is shallowly embedded: tensors become index
functions, floating-point arithmetic becomes real (or rational, where the
code is purely comparative) arithmetic, the iterator protocol becomes an
explicit state machine, and the in-place configuration mutation of
`VoxelImageGenerator.__init__` becomes an explicit store update.
-/

namespace DobryninGen

/-! ## Iterator state machine (`SurfaceGenerator.__call__/__iter__/__next__`) -/

/-- State of a `SurfaceGenerator` as an iterator: `num_batches` (set by
`__call__`) and `_index` (reset by `__iter__`, advanced by `__next__`). -/
structure SurfaceGenState where
  numBatches : ℕ
  index : ℕ
  deriving DecidableEq, Repr

/-- Embeds `SurfaceGenerator.__call__(num_batches)`: stores `num_batches` and
returns `self`; it does not touch `_index`. -/
def callGen (s : SurfaceGenState) (n : ℕ) : SurfaceGenState :=
  { s with numBatches := n }

/-- Embeds `SurfaceGenerator.__iter__`: sets `_index = 0` and returns `self`. -/
def iterGen (s : SurfaceGenState) : SurfaceGenState :=
  { s with index := 0 }

/-- Embeds `SurfaceGenerator.__next__` (with `strip_nw = False`): if
`_index >= num_batches`, raise `StopIteration` (modelled as `none`); otherwise
increment `_index` and return the generated `(surfaces, features)` pair,
modelled abstractly by the value `gf` of the generation function. -/
def nextGen {α : Type} (gf : α) (s : SurfaceGenState) : Option (α × SurfaceGenState) :=
  if s.numBatches ≤ s.index then none
  else some (gf, { s with index := s.index + 1 })

/-- Runs `__next__` up to `k` times, counting the emitted pairs and returning
the final iterator state (a `StopIteration` leaves the state unchanged and
emits nothing, as in the Python code). -/
def runNext {α : Type} (gf : α) : SurfaceGenState → ℕ → ℕ × SurfaceGenState
  | s, 0 => (0, s)
  | s, k + 1 =>
    match nextGen gf s with
    | none => (0, s)
    | some (_, s') =>
      let r := runNext gf s' k
      (r.1 + 1, r.2)

/-! ## Nw-stripping (`SurfaceGenerator.__next__` with `strip_nw = True`) -/

/-- Embeds the construction of `to_keep_b` from one batch element's
`choices_b` (8 indices drawn by `torch.randint(0, Nw, (batch, 8))`):
`to_keep_b` starts as zeros and `to_keep_b[choices_b] = True` marks exactly
the chosen indices. -/
def toKeep (n : ℕ) (choices : Fin 8 → Fin n) : Fin n → Bool :=
  fun w => decide (∃ j, choices j = w)

/-- Embeds the masked assignment `surface[~to_keep_b] = 0` for one batch
element, with `surface` of shape `(phi, Nw)` and the mask of length `Nw`.
PyTorch boolean-mask indexing applies the mask to the FIRST axis of
`surface`, so this requires `phi = Nw` (square resolution, else the code
raises a shape mismatch) and zeroes the rows whose phi-axis index is not
marked kept. -/
def stripMaskedAssign {n : ℕ} (surface : Fin n → Fin n → ℚ) (keep : Fin n → Bool) :
    Fin n → Fin n → ℚ :=
  fun p w => if keep p then surface p w else 0

/-- Modelled from the spec: the documented stripping behaviour ("All specific
viscosity data is set to 0 for all values of Nw except for several randomly
chosen values"), i.e. zero every chain-length COLUMN whose index is not
kept.  Stated only to exhibit the divergence from `stripMaskedAssign`. -/
def stripClaimed {n : ℕ} (surface : Fin n → Fin n → ℚ) (keep : Fin n → Bool) :
    Fin n → Fin n → ℚ :=
  fun p w => if keep w then surface p w else 0

/-! ## Voxelizer (`VoxelImageGenerator.__next__`) -/

/-- Embeds `torch.tile(surfaces.reshape((batch, phi, Nw, 1)), (1, 1, 1, eta_sp))`:
the surface value is repeated along a new viscosity axis. -/
def tileEta {batch P W : ℕ} (surf : Fin batch → Fin (P + 1) → Fin (W + 1) → ℚ)
    (E : ℕ) : Fin batch → Fin (P + 1) → Fin (W + 1) → Fin (E + 1) → ℚ :=
  fun b p w _ => surf b p w

/-- Embeds the occupancy computation of `VoxelImageGenerator.__next__`:
`torch.logical_and(surfaces[:, :-1, :-1, :-1] < grid_values[1:],
surfaces[:, 1:, 1:, 1:] > grid_values[:-1]).to(dtype=torch.int16)`.
The surface has one extra point per axis (`P+1`, `W+1` grid points, `E+1`
bin edges), and the image has shape `(batch, P, W, E)` with `int16`
entries. -/
def voxelImage {batch P W E : ℕ} (surf : Fin batch → Fin (P + 1) → Fin (W + 1) → ℚ)
    (edges : Fin (E + 1) → ℚ) : Fin batch → Fin P → Fin W → Fin E → ℤ :=
  fun b p w e =>
    if tileEta surf E b p.castSucc w.castSucc e.castSucc < edges e.succ ∧
        tileEta surf E b p.succ w.succ e.succ > edges e.castSucc
    then 1 else 0

/-! ## Configuration and `VoxelImageGenerator.__init__` -/

/-- Embeds `data_processing.Resolution` (grid point counts per axis). -/
structure GridResolution where
  phi : ℕ
  Nw : ℕ
  etaSp : ℕ
  deriving DecidableEq, Repr

/-- Embeds `data_processing.Range` (min/max bounds of a feature). -/
structure FeatRange where
  min : ℚ
  max : ℚ
  deriving DecidableEq, Repr

/-- Embeds `data_processing.Mode`. -/
inductive GenMode where
  | good
  | theta
  | mixed
  deriving DecidableEq, Repr

/-- Embeds the `Config` protocol of `generators.py`: the fields the
generators read.  The opaque `torch.device` is modelled as a token. -/
structure GenConfig where
  device : ℕ
  resolution : GridResolution
  mode : GenMode
  phiRange : FeatRange
  nwRange : FeatRange
  etaSpRange : FeatRange
  bgRange : FeatRange
  bthRange : FeatRange
  peRange : FeatRange
  batchSize : ℕ
  deriving DecidableEq, Repr

/-- Embeds the assignment `self.config.resolution = Resolution(
config.resolution.phi + 1, config.resolution.Nw + 1,
config.resolution.eta_sp + 1)` performed by `VoxelImageGenerator.__init__`
on the configuration object. -/
def bumpResolution (c : GenConfig) : GenConfig :=
  { c with resolution := ⟨c.resolution.phi + 1, c.resolution.Nw + 1, c.resolution.etaSp + 1⟩ }

/-- The references a constructed `VoxelImageGenerator` holds: `self.config`
and the configuration object passed to the internal
`SurfaceGenerator(self.config, ...)`. -/
structure VoxelImageGenRefs where
  configRef : ℕ
  surfaceGenConfigRef : ℕ
  deriving DecidableEq, Repr

/-- Embeds `VoxelImageGenerator.__init__` acting on a store of configuration
objects: `self.config = config` aliases the caller's object at `ref`, the
resolution field of that same object is overwritten in place, and the
internal `SurfaceGenerator` is built from that same object. -/
def voxelImageInit (store : ℕ → GenConfig) (ref : ℕ) :
    (ℕ → GenConfig) × VoxelImageGenRefs :=
  (Function.update store ref (bumpResolution (store ref)), ⟨ref, ref⟩)

/-! ## Scalar regime formulas (pointwise semantics of the tensor code) -/

/-- Embeds the good-mode blob size `g = Bg ** (3 / 0.764) / self.phi ** (1 / 0.764)`
(`_good_generation`). -/
noncomputable def goodG (bg phi : ℝ) : ℝ :=
  bg ^ ((3 : ℝ) / 0.764) / phi ^ ((1 : ℝ) / 0.764)

/-- Embeds the good-mode surface value
`eta_sp = Nw * (1 + (Nw / Pe**2 / g) ** 2) * fmin(1 / g, phi / Bg ** (1 / (1 - 0.588)))`
(`_good_generation`). -/
noncomputable def goodEtaSp (bg pe phi n : ℝ) : ℝ :=
  n * (1 + (n / pe ^ 2 / goodG bg phi) ^ 2) *
    min (1 / goodG bg phi) (phi / bg ^ ((1 : ℝ) / (1 - 0.588)))

/-- Embeds the theta-mode blob size `g = Bth**6 / self.phi**2`
(`_theta_generation`). -/
noncomputable def thetaG (bth phi : ℝ) : ℝ :=
  bth ^ 6 / phi ^ 2

/-- Embeds the theta-mode entanglement strand length
`Ne = Pe**2 * fmin(Bth**2 * self.phi ** (-4 / 3), g)` (`_theta_generation`). -/
noncomputable def thetaNe (bth pe phi : ℝ) : ℝ :=
  pe ^ 2 * min (bth ^ 2 * phi ^ ((-4 : ℝ) / 3)) (thetaG bth phi)

/-- Embeds the theta-mode surface value
`eta_sp = Nw * (1 + (Nw / Ne) ** 2) * fmin(1 / g, phi / Bth**2)`
(`_theta_generation`). -/
noncomputable def thetaEtaSp (bth pe phi n : ℝ) : ℝ :=
  n * (1 + (n / thetaNe bth pe phi) ^ 2) * min (1 / thetaG bth phi) (phi / bth ^ 2)

/-- Embeds the mixed-mode derivation of `Bth` (`_mixed_generation`):
`Bth = torch.rand(...) * Bg ** (1 / 0.824) * (bth_range.max - bth_range.min)
+ bth_range.min`, with `u` the per-element uniform draw from `[0, 1)`. -/
noncomputable def mixedBth (u bg bthMin bthMax : ℝ) : ℝ :=
  u * bg ^ ((1 : ℝ) / 0.824) * (bthMax - bthMin) + bthMin

/-- Embeds the mixed-mode blob size
`g = fmin(Bg ** (3 / 0.764) / phi ** (1 / 0.764), Bth**6 / phi**2)`
(`_mixed_generation`). -/
noncomputable def mixedG (bg bth phi : ℝ) : ℝ :=
  min (bg ^ ((3 : ℝ) / 0.764) / phi ^ ((1 : ℝ) / 0.764)) (bth ^ 6 / phi ^ 2)

/-- Embeds the mixed-mode entanglement strand length (`_mixed_generation`):
`Ne = Pe**2 * fmin(fmin(Bth ** (0.944 / 0.528) / Bg ** (2 / 0.528) * g,
Bth**2 * phi ** (-4 / 3)), g)` — the nested grouping exactly as in the
source. -/
noncomputable def mixedNe (bg bth pe phi : ℝ) : ℝ :=
  pe ^ 2 *
    min
      (min (bth ^ ((0.944 : ℝ) / 0.528) / bg ^ ((2 : ℝ) / 0.528) * mixedG bg bth phi)
        (bth ^ 2 * phi ^ ((-4 : ℝ) / 3)))
      (mixedG bg bth phi)

/-- The flat three-way minimum over the same three candidate regime
expressions, each evaluated separately (the comparison object named by the
spec's claim about the nested grouping). -/
noncomputable def mixedNeFlat (bg bth pe phi : ℝ) : ℝ :=
  pe ^ 2 *
    min (bth ^ ((0.944 : ℝ) / 0.528) / bg ^ ((2 : ℝ) / 0.528) * mixedG bg bth phi)
      (min (bth ^ 2 * phi ^ ((-4 : ℝ) / 3)) (mixedG bg bth phi))

/-- Embeds the mixed-mode surface value
`eta_sp = Nw * (1 + (Nw / Ne) ** 2) * fmin(1 / g, phi / Bth**2)`
(`_mixed_generation`). -/
noncomputable def mixedEtaSp (bg bth pe phi n : ℝ) : ℝ :=
  n * (1 + (n / mixedNe bg bth pe phi) ^ 2) *
    min (1 / mixedG bg bth phi) (phi / bth ^ 2)

/-! ## Grid construction (`np.geomspace` in `SurfaceGenerator.__init__`) -/

/-- The `i`-th point of `np.geomspace(a, b, n, endpoint=True)`:
`a * (b / a) ** (i / (n - 1))`. -/
noncomputable def geomspaceVal (a b : ℝ) (n : ℕ) (i : ℕ) : ℝ :=
  a * (b / a) ^ ((i : ℝ) / ((n : ℝ) - 1))

open Classical in
/-- Embeds `np.geomspace(a, b, n, endpoint=True)` as used to build the phi
and Nw axes: numpy raises `ValueError` exactly when an endpoint is zero;
otherwise it returns the `n` geometric points. -/
noncomputable def geomspaceChecked (a b : ℝ) (n : ℕ) : Except String (List ℝ) :=
  if a = 0 ∨ b = 0 then Except.error "Geometric sequence cannot include zero"
  else Except.ok ((List.range n).map (geomspaceVal a b n))

/-! ## Broadcast tensor model (shapes up to 3 axes, as used by the code) -/

/-- A 3-axis tensor: a shape `(d1, d2, d3)` and an index function.  Only the
indices below the shape are meaningful. -/
structure T3 where
  d1 : ℕ
  d2 : ℕ
  d3 : ℕ
  data : ℕ → ℕ → ℕ → ℝ

/-- Broadcast index rule of PyTorch: an axis of size 1 is read at index 0
regardless of the requested index. -/
def bidx (d i : ℕ) : ℕ := if d = 1 then 0 else i

/-- Reads tensor `t` at output index `(i, j, k)` under broadcasting. -/
def T3.bget (t : T3) (i j k : ℕ) : ℝ :=
  t.data (bidx t.d1 i) (bidx t.d2 j) (bidx t.d3 k)

/-- A binary elementwise operation under PyTorch broadcasting: the result
shape is the axiswise max of the operand shapes (operand axes are equal or
of size 1 in all uses below). -/
def T3.map2 (f : ℝ → ℝ → ℝ) (s t : T3) : T3 :=
  ⟨max s.d1 t.d1, max s.d2 t.d2, max s.d3 t.d3,
    fun i j k => f (s.bget i j k) (t.bget i j k)⟩

/-- A unary elementwise operation (tensor-with-scalar operations broadcast
the scalar, preserving the tensor's shape). -/
def T3.emap (f : ℝ → ℝ) (t : T3) : T3 :=
  ⟨t.d1, t.d2, t.d3, fun i j k => f (t.data i j k)⟩

/-- A sampled parameter tensor of shape `(batch_size, 1, 1)`, as produced by
`self.bg_distribution.sample(torch.Size((batch_size, 1, 1)))`. -/
def paramT (B : ℕ) (v : ℕ → ℝ) : T3 := ⟨B, 1, 1, fun b _ _ => v b⟩

/-- The concentration tensor `self.phi` of shape `(1, resolution.phi, 1)`. -/
def phiT (P : ℕ) (v : ℕ → ℝ) : T3 := ⟨1, P, 1, fun _ p _ => v p⟩

/-- The chain-length tensor `self.Nw` of shape `(1, 1, resolution.Nw)`. -/
def nwT (W : ℕ) (v : ℕ → ℝ) : T3 := ⟨1, 1, W, fun _ _ w => v w⟩

/-- Embeds the tensor computation of `_good_generation` (raw `eta_sp`,
before `preprocess_eta_sp`): blob size
`g = Bg ** (3 / 0.764) / self.phi ** (1 / 0.764)` and
`eta_sp = self.Nw * (1 + (self.Nw / Pe**2 / g) ** 2)
* torch.fmin(1 / g, self.phi / Bg ** (1 / (1 - 0.588)))`, every operation
elementwise under broadcasting. -/
noncomputable def goodSurface (B P W : ℕ) (BgA PeA phiA NwA : ℕ → ℝ) : T3 :=
  let Bg := paramT B BgA
  let Pe := paramT B PeA
  let phi := phiT P phiA
  let Nw := nwT W NwA
  let g := T3.map2 (· / ·)
    (T3.emap (fun x => x ^ ((3 : ℝ) / 0.764)) Bg)
    (T3.emap (fun x => x ^ ((1 : ℝ) / 0.764)) phi)
  T3.map2 (· * ·)
    (T3.map2 (· * ·) Nw
      (T3.emap (fun x => 1 + x)
        (T3.emap (fun x => x ^ 2)
          (T3.map2 (· / ·) (T3.map2 (· / ·) Nw (T3.emap (fun x => x ^ 2) Pe)) g))))
    (T3.map2 min
      (T3.emap (fun x => 1 / x) g)
      (T3.map2 (· / ·) phi (T3.emap (fun x => x ^ ((1 : ℝ) / (1 - 0.588))) Bg)))

/-! ## Concrete instances used by witnesses and counterexamples -/

/-- An all-ones 2x2 surface (one batch element, square resolution 2x2). -/
def onesSurf2 : Fin 2 → Fin 2 → ℚ := fun _ _ => 1

/-- The draw in which all 8 random chain-length indices collide at index 0. -/
def choicesZero : Fin 8 → Fin 2 := fun _ => 0

/-- A concrete configuration (a stand-in for a loaded `NNConfig`). -/
def sampleConfig : GenConfig :=
  ⟨0, ⟨64, 64, 64⟩, GenMode.mixed, ⟨1, 2⟩, ⟨1, 2⟩, ⟨1, 2⟩, ⟨1, 2⟩, ⟨1, 2⟩, ⟨1, 2⟩, 4⟩

/-- A store holding `sampleConfig` at every reference. -/
def sampleStore : ℕ → GenConfig := fun _ => sampleConfig

/-- The constant-one parameter/axis array. -/
noncomputable def oneArr : ℕ → ℝ := fun _ => 1

/-! ## Theorems -/

/-- Helper: `runNext` emits `min k (remaining)` pairs and advances the index
by that amount, keeping `num_batches` fixed. -/
theorem runNext_spec {α : Type} (gf : α) (k : ℕ) (s : SurfaceGenState) :
    (runNext gf s k).1 = min k (s.numBatches - s.index) ∧
    (runNext gf s k).2.numBatches = s.numBatches ∧
    (runNext gf s k).2.index = s.index + min k (s.numBatches - s.index) := by
  induction k generalizing s with
  | zero => simp [runNext]
  | succ k ih =>
    by_cases h : s.numBatches ≤ s.index
    · have hnext : nextGen gf s = none := by simp [nextGen, h]
      refine ⟨?_, ?_, ?_⟩ <;> simp [runNext, hnext] <;> omega
    · have hnext : nextGen gf s = some (gf, { s with index := s.index + 1 }) := by
        simp [nextGen, h]
      rcases ih { s with index := s.index + 1 } with ⟨h1, h2, h3⟩
      refine ⟨?_, ?_, ?_⟩ <;> simp [runNext, hnext, h1, h2, h3] <;> omega

/-- C4: after `call(n)` and starting iteration, exactly `n` pairs are
emitted (`n` `next` calls all succeed, any further call signals
`StopIteration`, and even `n + k` calls emit only `n` pairs); concretely,
`call(3)` then iterating yields 3 pairs with the 4th `next` raising
`StopIteration`, and a subsequent `call(2)` with iteration yields exactly 2
more. -/
theorem c4_batch_iterator {α : Type} (gf : α) (s : SurfaceGenState) (n k : ℕ) :
    (runNext gf (iterGen (callGen s n)) n).1 = n ∧
    nextGen gf (runNext gf (iterGen (callGen s n)) n).2 = none ∧
    (runNext gf (iterGen (callGen s n)) (n + k)).1 = n ∧
    (runNext gf (iterGen (callGen s 3)) 3).1 = 3 ∧
    nextGen gf (runNext gf (iterGen (callGen s 3)) 3).2 = none ∧
    (runNext gf (iterGen (callGen (runNext gf (iterGen (callGen s 3)) 4).2 2)) 2).1 = 2 := by
  have key : ∀ (t : SurfaceGenState) (m j : ℕ),
      (runNext gf (iterGen (callGen t m)) j).1 = min j m ∧
      (runNext gf (iterGen (callGen t m)) j).2.numBatches = m ∧
      (runNext gf (iterGen (callGen t m)) j).2.index = min j m := by
    intro t m j
    have h := runNext_spec gf j (iterGen (callGen t m))
    simpa [iterGen, callGen] using h
  have stop : ∀ (t : SurfaceGenState) (m : ℕ),
      nextGen gf (runNext gf (iterGen (callGen t m)) m).2 = none := by
    intro t m
    rcases key t m m with ⟨_, h2, h3⟩
    simp [nextGen, h2, h3]
  refine ⟨?_, stop s n, ?_, ?_, stop s 3, ?_⟩
  · rcases key s n n with ⟨h1, _, _⟩
    simpa using h1
  · rcases key s n (n + k) with ⟨h1, _, _⟩
    simpa using h1
  · rcases key s 3 3 with ⟨h1, _, _⟩
    simpa using h1
  · rcases key (runNext gf (iterGen (callGen s 3)) 4).2 2 2 with ⟨h1, _, _⟩
    simpa using h1

/-- C7 counterexample: `__call__` alone does not reset the position index.
On an exhausted generator state (`num_batches = 3`, `_index = 3`), calling
`call(2)` leaves `_index = 3`, not `0`. -/
theorem c7_call_does_not_reset_counterexample :
    (callGen ⟨3, 3⟩ 2).index ≠ 0 := by decide

/-- C7 (amended): `__call__(n)` only stores `num_batches` and leaves the
index unchanged; the reset to `index = 0` happens in `__iter__`, so
`call(n)` followed by starting iteration restarts at index 0 without
rebuilding the generator. -/
theorem c7_iter_resets_index (s : SurfaceGenState) (n : ℕ) :
    (callGen s n).index = s.index ∧
    (callGen s n).numBatches = n ∧
    (iterGen (callGen s n)).index = 0 ∧
    (iterGen (callGen s n)).numBatches = n := by
  simp [callGen, iterGen]

/-- C3: the voxel image cell `(b, p, w, e)` is `1` exactly when the
lower-corner surface value is strictly below the upper bin edge and the
upper-corner surface value is strictly above the lower bin edge (so a value
sitting exactly on a bin boundary is excluded), and every cell is `0` or
`1`; the image is indexed by `(batch, P, W, E)` for a surface on a
`(batch, P+1, W+1)` grid with `E+1` bin edges. -/
theorem c3_voxel_occupancy {batch P W E : ℕ}
    (surf : Fin batch → Fin (P + 1) → Fin (W + 1) → ℚ) (edges : Fin (E + 1) → ℚ)
    (b : Fin batch) (p : Fin P) (w : Fin W) (e : Fin E) :
    (voxelImage surf edges b p w e = 1 ↔
      surf b p.castSucc w.castSucc < edges e.succ ∧
        surf b p.succ w.succ > edges e.castSucc) ∧
    (voxelImage surf edges b p w e = 0 ∨ voxelImage surf edges b p w e = 1) := by
  unfold voxelImage tileEta
  constructor
  · split <;> simp_all
  · split <;> simp

/-- C5: evaluation of the stripping code at the failing input (batch size 1,
square resolution `phi = Nw = 2`, all 8 random indices equal to 0, all-ones
surface).  The masked assignment `surface[~to_keep_b] = 0` masks the phi
axis, so the entry in the NOT-chosen chain-length column 1 survives with
value 1 (the documented behaviour demands 0 there), while the entry at
phi-row 1 of the CHOSEN column 0 is zeroed (the documented behaviour keeps
that column intact). -/
theorem c5_strip_masks_phi_axis :
    stripMaskedAssign onesSurf2 (toKeep 2 choicesZero) 0 1 = 1 ∧
    stripClaimed onesSurf2 (toKeep 2 choicesZero) 0 1 = 0 ∧
    stripMaskedAssign onesSurf2 (toKeep 2 choicesZero) 1 0 = 0 ∧
    stripClaimed onesSurf2 (toKeep 2 choicesZero) 1 0 = 1 := by
  decide

/-- C9 counterexample (negation of the claim): there is NO input on which
the nested grouping `fmin(fmin(e1, e2), e3)` of the mixed-mode `Ne`
computation differs from the flat three-way minimum of the separately
evaluated candidate regime expressions. -/
theorem c9_no_separating_input_counterexample :
    ¬ ∃ bg bth pe phi : ℝ, mixedNe bg bth pe phi ≠ mixedNeFlat bg bth pe phi := by
  push_neg
  intro bg bth pe phi
  unfold mixedNe mixedNeFlat
  rw [min_assoc]

/-- C9 (amended): the nested minimum computation of the mixed-mode `Ne` IS
equal, on every input, to the flat three-way minimum over the three
separately evaluated candidate regime expressions — minimum on the reals is
associative and commutative, so the stated grouping is immaterial to the
value. -/
theorem c9_nested_min_eq_flat (bg bth pe phi : ℝ) :
    mixedNe bg bth pe phi = mixedNeFlat bg bth pe phi := by
  unfold mixedNe mixedNeFlat
  rw [min_assoc]

/-- C10: constructing a `VoxelImageGenerator` rewrites, in the caller's
store, the resolution of the caller-supplied configuration object to one
extra point per axis; the internal `SurfaceGenerator` is built from that
same (mutated) object, and every other configuration field, as well as
every other stored object, is left unchanged. -/
theorem c10_voxel_config_mutation (store : ℕ → GenConfig) (ref r : ℕ) (h : r ≠ ref) :
    ((voxelImageInit store ref).1 ref).resolution.phi = (store ref).resolution.phi + 1 ∧
    ((voxelImageInit store ref).1 ref).resolution.Nw = (store ref).resolution.Nw + 1 ∧
    ((voxelImageInit store ref).1 ref).resolution.etaSp = (store ref).resolution.etaSp + 1 ∧
    ((voxelImageInit store ref).1 ref).device = (store ref).device ∧
    ((voxelImageInit store ref).1 ref).mode = (store ref).mode ∧
    ((voxelImageInit store ref).1 ref).phiRange = (store ref).phiRange ∧
    ((voxelImageInit store ref).1 ref).nwRange = (store ref).nwRange ∧
    ((voxelImageInit store ref).1 ref).etaSpRange = (store ref).etaSpRange ∧
    ((voxelImageInit store ref).1 ref).bgRange = (store ref).bgRange ∧
    ((voxelImageInit store ref).1 ref).bthRange = (store ref).bthRange ∧
    ((voxelImageInit store ref).1 ref).peRange = (store ref).peRange ∧
    ((voxelImageInit store ref).1 ref).batchSize = (store ref).batchSize ∧
    (voxelImageInit store ref).2.configRef = ref ∧
    (voxelImageInit store ref).2.surfaceGenConfigRef = (voxelImageInit store ref).2.configRef ∧
    (voxelImageInit store ref).1 r = store r := by
  simp [voxelImageInit, bumpResolution, Function.update_apply, h]

/-- C10 witness: the mutation theorem applied at a concrete store and
references 0 (the caller's object) and 1 (an unrelated object). -/
theorem c10_witness :
    (1 : ℕ) ≠ 0 ∧
    (((voxelImageInit sampleStore 0).1 0).resolution.phi = (sampleStore 0).resolution.phi + 1 ∧
    ((voxelImageInit sampleStore 0).1 0).resolution.Nw = (sampleStore 0).resolution.Nw + 1 ∧
    ((voxelImageInit sampleStore 0).1 0).resolution.etaSp = (sampleStore 0).resolution.etaSp + 1 ∧
    ((voxelImageInit sampleStore 0).1 0).device = (sampleStore 0).device ∧
    ((voxelImageInit sampleStore 0).1 0).mode = (sampleStore 0).mode ∧
    ((voxelImageInit sampleStore 0).1 0).phiRange = (sampleStore 0).phiRange ∧
    ((voxelImageInit sampleStore 0).1 0).nwRange = (sampleStore 0).nwRange ∧
    ((voxelImageInit sampleStore 0).1 0).etaSpRange = (sampleStore 0).etaSpRange ∧
    ((voxelImageInit sampleStore 0).1 0).bgRange = (sampleStore 0).bgRange ∧
    ((voxelImageInit sampleStore 0).1 0).bthRange = (sampleStore 0).bthRange ∧
    ((voxelImageInit sampleStore 0).1 0).peRange = (sampleStore 0).peRange ∧
    ((voxelImageInit sampleStore 0).1 0).batchSize = (sampleStore 0).batchSize ∧
    (voxelImageInit sampleStore 0).2.configRef = 0 ∧
    (voxelImageInit sampleStore 0).2.surfaceGenConfigRef = (voxelImageInit sampleStore 0).2.configRef ∧
    (voxelImageInit sampleStore 0).1 1 = sampleStore 1) :=
  ⟨by decide, c10_voxel_config_mutation sampleStore 0 1 (by decide)⟩

/-- C2 counterexample: the derived `Bth` can exceed `bth_range.max`.  With
`u = 1/2`, `Bg = 4`, `bth_range = (0, 1)`, the code's
`Bth = u * Bg ** (1 / 0.824) * (max - min) + min` is at least `2`, above the
configured maximum `1`. -/
theorem c2_bth_exceeds_max_counterexample :
    ¬ mixedBth (1 / 2) 4 0 1 ≤ 1 := by
  unfold mixedBth
  have h4 : (4 : ℝ) ≤ (4 : ℝ) ^ ((1 : ℝ) / 0.824) := by
    calc (4 : ℝ) = 4 ^ (1 : ℝ) := (Real.rpow_one 4).symm
    _ ≤ 4 ^ ((1 : ℝ) / 0.824) :=
      Real.rpow_le_rpow_of_exponent_le (by norm_num) (by norm_num)
  intro h
  nlinarith

/-- C2 (amended): for `0 ≤ u < 1`, `0 < Bg`, and `bth_min < bth_max`, the
derived `Bth` satisfies `bth_min ≤ Bth` and the strict upper bound
`Bth < Bg ^ (1/0.824) * (bth_max - bth_min) + bth_min`; the claimed bound
`Bth ≤ bth_max` additionally holds whenever `Bg ≤ 1` (it can fail for
`Bg > 1`, see the counterexample). -/
theorem c2_mixed_bth_bounds (u bg bthMin bthMax : ℝ)
    (hu0 : 0 ≤ u) (hu1 : u < 1) (hbg : 0 < bg) (hr : bthMin < bthMax) :
    bthMin ≤ mixedBth u bg bthMin bthMax ∧
    mixedBth u bg bthMin bthMax < bg ^ ((1 : ℝ) / 0.824) * (bthMax - bthMin) + bthMin ∧
    (bg ≤ 1 → mixedBth u bg bthMin bthMax ≤ bthMax) := by
  have hrp : 0 < bg ^ ((1 : ℝ) / 0.824) := Real.rpow_pos_of_pos hbg _
  have hd : 0 < bthMax - bthMin := by linarith
  unfold mixedBth
  refine ⟨?_, ?_, ?_⟩
  · nlinarith [mul_nonneg (mul_nonneg hu0 hrp.le) hd.le]
  · nlinarith [mul_pos hrp hd]
  · intro hbg1
    have hle1 : bg ^ ((1 : ℝ) / 0.824) ≤ 1 :=
      Real.rpow_le_one hbg.le hbg1 (by norm_num)
    have hur : u * bg ^ ((1 : ℝ) / 0.824) ≤ 1 :=
      le_trans (mul_le_of_le_one_left hrp.le hu1.le) hle1
    nlinarith [mul_le_mul_of_nonneg_right hur hd.le]

/-- C2 witness: the amended bounds at `u = 0`, `Bg = 1`,
`bth_range = (0, 1)`. -/
theorem c2_witness :
    (0 : ℝ) ≤ 0 ∧ (0 : ℝ) < 1 ∧ (0 : ℝ) < 1 ∧ (0 : ℝ) < 1 ∧
    ((0 : ℝ) ≤ mixedBth 0 1 0 1 ∧
      mixedBth 0 1 0 1 < (1 : ℝ) ^ ((1 : ℝ) / 0.824) * (1 - 0) + 0 ∧
      ((1 : ℝ) ≤ 1 → mixedBth 0 1 0 1 ≤ 1)) :=
  ⟨le_refl 0, by norm_num, by norm_num, by norm_num,
    c2_mixed_bth_bounds 0 1 0 1 (le_refl 0) (by norm_num) (by norm_num) (by norm_num)⟩

/-- C6 counterexample: grid construction does NOT fail when `max ≤ min`.
`np.geomspace(2, 1, 2)` succeeds and returns the decreasing axis `[2, 1]`
(no `ConfigurationError`, and the axis is not strictly increasing). -/
theorem c6_no_failure_on_decreasing_counterexample :
    geomspaceChecked 2 1 2 = Except.ok [2, 1] := by
  unfold geomspaceChecked
  rw [if_neg (by norm_num)]
  have hr : List.range 2 = [0, 1] := by decide
  have h0 : geomspaceVal 2 1 2 0 = 2 := by
    unfold geomspaceVal
    norm_num
  have h1 : geomspaceVal 2 1 2 1 = 1 := by
    unfold geomspaceVal
    norm_num
  rw [hr]
  simp [h0, h1]

/-- C6 (amended): grid construction itself performs no
`ConfigurationError` validation (`np.geomspace` raises only when an
endpoint is zero; `max ≤ min` or `count < 2` succeed silently, yielding
non-increasing or short axes); for valid configurations
(`0 < min < max`, `count ≥ 2`) it deterministically produces an
endpoints-inclusive geometric axis of the configured length that is
strictly increasing. -/
theorem c6_geomspace_valid (a b : ℝ) (n : ℕ)
    (ha : 0 < a) (hab : a < b) (hn : 2 ≤ n) :
    ∃ l, geomspaceChecked a b n = Except.ok l ∧
      l.length = n ∧ l.Chain' (· < ·) ∧
      l.head? = some a ∧ l.getLast? = some b := by
  have ha0 : a ≠ 0 := ne_of_gt ha
  have hb0 : b ≠ 0 := ne_of_gt (lt_trans ha hab)
  have hba : 1 < b / a := (one_lt_div ha).2 hab
  obtain ⟨m, rfl⟩ : ∃ m, n = m + 1 := ⟨n - 1, by omega⟩
  have hm : 1 ≤ m := by omega
  have hcast : ((m + 1 : ℕ) : ℝ) - 1 = (m : ℝ) := by push_cast; ring
  have hmpos : (0 : ℝ) < (m : ℝ) := by exact_mod_cast hm
  refine ⟨(List.range (m + 1)).map (geomspaceVal a b (m + 1)), ?_, ?_, ?_, ?_, ?_⟩
  · unfold geomspaceChecked
    rw [if_neg (by push_neg; exact ⟨ha0, hb0⟩)]
  · simp
  · rw [List.chain'_map, List.chain'_range_succ]
    intro i _
    unfold geomspaceVal
    rw [hcast]
    apply mul_lt_mul_of_pos_left _ ha
    rw [Real.rpow_lt_rpow_left_iff hba]
    apply div_lt_div_of_pos_right _ hmpos
    exact_mod_cast Nat.lt_succ_self i
  · rw [List.range_succ_eq_map]
    unfold geomspaceVal
    rw [hcast]
    simp
  · rw [List.getLast?_eq_getElem?]
    simp only [List.length_map, List.length_range, Nat.add_sub_cancel]
    rw [List.getElem?_map, List.getElem?_range (Nat.lt_succ_self m)]
    unfold geomspaceVal
    rw [hcast]
    show some (a * (b / a) ^ ((m : ℝ) / (m : ℝ))) = some b
    rw [div_self (ne_of_gt hmpos), Real.rpow_one, mul_comm, div_mul_cancel₀ b ha0]

/-- C6 witness: a valid configuration (`min = 1`, `max = 2`, `count = 2`)
produces a strictly increasing two-point axis from 1 to 2. -/
theorem c6_witness :
    (0 : ℝ) < 1 ∧ (1 : ℝ) < 2 ∧ 2 ≤ 2 ∧
    ∃ l, geomspaceChecked 1 2 2 = Except.ok l ∧
      l.length = 2 ∧ l.Chain' (· < ·) ∧
      l.head? = some 1 ∧ l.getLast? = some 2 :=
  ⟨by norm_num, by norm_num, le_refl 2,
    c6_geomspace_valid 1 2 2 (by norm_num) (by norm_num) (le_refl 2)⟩

/-- Helper: the shared viscosity crossover form
`n * (1 + (n / c) ^ 2) * m` is strictly increasing in `n` on the positives
when the entanglement scale `c` and the minimum factor `m` are positive. -/
theorem etaCore_strict_mono (c m n1 n2 : ℝ) (hc : 0 < c) (hm : 0 < m)
    (h1 : 0 < n1) (h12 : n1 < n2) :
    n1 * (1 + (n1 / c) ^ 2) * m < n2 * (1 + (n2 / c) ^ 2) * m := by
  have hx : 0 < n1 / c := div_pos h1 hc
  have hy : n1 / c < n2 / c := div_lt_div_of_pos_right h12 hc
  have hsq : (n1 / c) ^ 2 < (n2 / c) ^ 2 := by nlinarith
  have key : n1 * (1 + (n1 / c) ^ 2) < n2 * (1 + (n2 / c) ^ 2) := by nlinarith
  exact mul_lt_mul_of_pos_right key hm

/-- C8: in each of the three modes, with the packing and blob parameters
and the concentration held fixed at any positive values, the raw `eta_sp`
value is strictly increasing in the chain length `N` (hence monotonically
increasing along the chain-length axis at every grid point, in particular
at an interior one). -/
theorem c8_eta_sp_monotone_in_chain_length (bg bth pe phi n1 n2 : ℝ)
    (hbg : 0 < bg) (hbth : 0 < bth) (hpe : 0 < pe) (hphi : 0 < phi)
    (h1 : 0 < n1) (h12 : n1 < n2) :
    goodEtaSp bg pe phi n1 < goodEtaSp bg pe phi n2 ∧
    thetaEtaSp bth pe phi n1 < thetaEtaSp bth pe phi n2 ∧
    mixedEtaSp bg bth pe phi n1 < mixedEtaSp bg bth pe phi n2 := by
  have hpe2 : 0 < pe ^ 2 := pow_pos hpe 2
  have hbth2 : 0 < bth ^ 2 := pow_pos hbth 2
  have hgood : 0 < goodG bg phi :=
    div_pos (Real.rpow_pos_of_pos hbg _) (Real.rpow_pos_of_pos hphi _)
  have htheta : 0 < thetaG bth phi := div_pos (pow_pos hbth 6) (pow_pos hphi 2)
  have hrc : 0 < bth ^ 2 * phi ^ ((-4 : ℝ) / 3) :=
    mul_pos hbth2 (Real.rpow_pos_of_pos hphi _)
  have hmixg : 0 < mixedG bg bth phi := lt_min hgood htheta
  refine ⟨?_, ?_, ?_⟩
  · unfold goodEtaSp
    rw [div_div, div_div]
    exact etaCore_strict_mono _ _ _ _ (mul_pos hpe2 hgood)
      (lt_min (one_div_pos.2 hgood) (div_pos hphi (Real.rpow_pos_of_pos hbg _)))
      h1 h12
  · unfold thetaEtaSp
    exact etaCore_strict_mono _ _ _ _
      (mul_pos hpe2 (lt_min hrc htheta))
      (lt_min (one_div_pos.2 htheta) (div_pos hphi hbth2))
      h1 h12
  · unfold mixedEtaSp
    have he1 : 0 < bth ^ ((0.944 : ℝ) / 0.528) / bg ^ ((2 : ℝ) / 0.528) * mixedG bg bth phi :=
      mul_pos (div_pos (Real.rpow_pos_of_pos hbth _) (Real.rpow_pos_of_pos hbg _)) hmixg
    exact etaCore_strict_mono _ _ _ _
      (mul_pos hpe2 (lt_min (lt_min he1 hrc) hmixg))
      (lt_min (one_div_pos.2 hmixg) (div_pos hphi hbth2))
      h1 h12

/-- C8 witness: monotonicity at the concrete parameters
`Bg = Bth = Pe = phi = 1` and chain lengths `1 < 2`. -/
theorem c8_witness :
    (0 : ℝ) < 1 ∧ (1 : ℝ) < 2 ∧
    (goodEtaSp 1 1 1 1 < goodEtaSp 1 1 1 2 ∧
      thetaEtaSp 1 1 1 1 < thetaEtaSp 1 1 1 2 ∧
      mixedEtaSp 1 1 1 1 1 < mixedEtaSp 1 1 1 1 2) :=
  ⟨by norm_num, by norm_num,
    c8_eta_sp_monotone_in_chain_length 1 1 1 1 1 2 (by norm_num) (by norm_num)
      (by norm_num) (by norm_num) (by norm_num) (by norm_num)⟩

/-- Helper: under broadcasting, an index below the axis size is read
unchanged (an axis of size 1 is read at 0, which coincides with the only
valid index). -/
theorem bidx_eq_self {d i : ℕ} (h : i < d) : bidx d i = i := by
  unfold bidx
  split <;> omega

/-- C1: in GOOD mode the raw surface tensor, obtained by broadcasting the
`(batch, 1, 1)` parameter tensors against the `(1, P, 1)` concentration and
`(1, 1, W)` chain-length axes, has shape `(batch, P, W)`, and every entry
`(i, j, k)` equals
`Nw * (1 + (Nw / (Pe^2 * g))^2) * min(1/g, phi / Bg^(1/(1-0.588)))` with
`g = Bg^(3/0.764) / phi^(1/0.764)`. -/
theorem c1_good_surface_shape_and_value (B P W : ℕ) (BgA PeA phiA NwA : ℕ → ℝ)
    (i j k : ℕ) (hi : i < B) (hj : j < P) (hk : k < W) :
    (goodSurface B P W BgA PeA phiA NwA).d1 = B ∧
    (goodSurface B P W BgA PeA phiA NwA).d2 = P ∧
    (goodSurface B P W BgA PeA phiA NwA).d3 = W ∧
    (goodSurface B P W BgA PeA phiA NwA).data i j k =
      NwA k * (1 + (NwA k /
        (PeA i ^ 2 * (BgA i ^ ((3 : ℝ) / 0.764) / phiA j ^ ((1 : ℝ) / 0.764)))) ^ 2) *
      min (1 / (BgA i ^ ((3 : ℝ) / 0.764) / phiA j ^ ((1 : ℝ) / 0.764)))
        (phiA j / BgA i ^ ((1 : ℝ) / (1 - 0.588))) := by
  have hbi : ∀ d : ℕ, i < d → bidx d i = i := fun _ h => bidx_eq_self h
  have hbj : ∀ d : ℕ, j < d → bidx d j = j := fun _ h => bidx_eq_self h
  have hbk : ∀ d : ℕ, k < d → bidx d k = k := fun _ h => bidx_eq_self h
  refine ⟨?_, ?_, ?_, ?_⟩
  · simp only [goodSurface, T3.map2, T3.emap, paramT, phiT, nwT]
    omega
  · simp only [goodSurface, T3.map2, T3.emap, paramT, phiT, nwT]
    omega
  · simp only [goodSurface, T3.map2, T3.emap, paramT, phiT, nwT]
    omega
  · simp only [goodSurface, T3.map2, T3.emap, T3.bget, paramT, phiT, nwT]
    simp (disch := omega) only [hbi, hbj, hbk]
    rw [div_div]

/-- C1 witness: the shape-and-value theorem applied at batch = P = W = 1
with all-ones parameters and axes, at entry (0, 0, 0). -/
theorem c1_witness :
    (0 : ℕ) < 1 ∧
    ((goodSurface 1 1 1 oneArr oneArr oneArr oneArr).d1 = 1 ∧
      (goodSurface 1 1 1 oneArr oneArr oneArr oneArr).d2 = 1 ∧
      (goodSurface 1 1 1 oneArr oneArr oneArr oneArr).d3 = 1 ∧
      (goodSurface 1 1 1 oneArr oneArr oneArr oneArr).data 0 0 0 =
        oneArr 0 * (1 + (oneArr 0 /
          (oneArr 0 ^ 2 * (oneArr 0 ^ ((3 : ℝ) / 0.764) / oneArr 0 ^ ((1 : ℝ) / 0.764)))) ^ 2) *
        min (1 / (oneArr 0 ^ ((3 : ℝ) / 0.764) / oneArr 0 ^ ((1 : ℝ) / 0.764)))
          (oneArr 0 / oneArr 0 ^ ((1 : ℝ) / (1 - 0.588)))) :=
  ⟨Nat.zero_lt_one,
    c1_good_surface_shape_and_value 1 1 1 oneArr oneArr oneArr oneArr 0 0 0
      Nat.zero_lt_one Nat.zero_lt_one Nat.zero_lt_one⟩

end DobryninGen
